import Mathlib

/-!
Verification of `cluster_tests/testlib/testlib.py`.

The Python module is a test-orchestration engine: it reconciles a cluster
against a declarative requirement set (`try_reuse_cluster`,
`get_appropriate_cluster`), runs four-phase testsets (`run_testset`,
`safe_test_function_call`), deterministically seeds each phase
(`apply_with_seed`), captures output (`no_output`), renders status lines
(`call_reported`, `right_aligned`) and normalises addresses
(`maybe_add_brackets`).

The definitions below are a shallow embedding of those functions.  External
collaborators are abstracted: the process-wide random generator (Python's
`random` module, a Mersenne Twister) is a parameter `RandGen`, the
requirement model is a parameter `Requirements`, the address classifier
(`ipaddress.ip_address`) is a parameter function.  Exceptions are modelled
with `Except`; printed output is modelled as the string a function writes to
the real standard output.
-/

/-- Byte strings as produced by `random.randbytes`; a byte is a `Nat`. -/
abbrev Bytes := List Nat

/-- Abstract model of the process-wide random generator (`random` module).
`seedState b` is the generator state produced by `random.seed(b)` for a
concrete seed value `b`; `entropyState` is the state produced by
`random.seed(None)`, which reseeds from OS entropy (modelled as a fixed
state of the generator instance); `randbytes n s` draws `n` bytes from
state `s`, returning the bytes and the advanced state. -/
structure RandGen (σ : Type) where
  seedState : Bytes → σ
  entropyState : σ
  randbytes : Nat → σ → Bytes × σ

/-- Model of `random.seed(seed)`: the state the generator is put into.
`random.seed(None)` draws fresh OS entropy; it does not keep the current
state. -/
def pySeed (g : RandGen σ) (seed : Option Bytes) : σ :=
  match seed with
  | none => g.entropyState
  | some b => g.seedState b

/-- Embedding of `testlib.apply_with_seed(obj, func, args, seed)`:
snapshot the generator state, `random.seed(seed)`, run the body (which may
draw from the seeded generator), and restore the snapshot in a `finally`
block.  The body is modelled as a function of the generator state it
observes, returning its result (possibly an exception, via `Except` inside
`α`) and the state it leaves the generator in. -/
def apply_with_seed (g : RandGen σ) (body : σ → α × σ) (seed : Option Bytes)
    (s : σ) : α × σ :=
  let rand_state := s
  let r := body (pySeed g seed)
  (r.1, rand_state)

/-- Concrete generator used to probe `apply_with_seed` with `seed = None`:
states are naturals, `random.seed(None)` lands in state 1. -/
def passThroughProbe : RandGen Nat where
  seedState := fun b => b.foldl (fun a x => a * 256 + x % 256) 2
  entropyState := 1
  randbytes := fun n s => (List.replicate n (s % 256), s + n)

/-- C6.  The claim states that `apply_with_seed` with `seed = None` is a
pass-through leaving the generator state unmodified before the body runs.
It is false: the code calls `random.seed(None)` unconditionally, which
reseeds the generator from OS entropy.  Concretely, a body that reports the
state it observes sees the entropy state (1), not the unmodified incoming
state (0) that a direct call would see. -/
theorem C6_counterexample :
    (apply_with_seed passThroughProbe (fun st => (st, st)) none 0).1 ≠
      ((fun st => (st, st)) 0).1 := by
  decide

/-- C6 (amended).  Calling `apply_with_seed` with no seed is not a
pass-through: `random.seed(None)` reseeds the generator before the body
runs, so the body observes the entropy-derived state, independent of the
prior state; the prior state is still restored after the call. -/
theorem apply_with_seed_none_reseeds (g : RandGen σ) (body : σ → α × σ)
    (s t : σ) :
    apply_with_seed g body none s = ((body g.entropyState).1, s) ∧
    (apply_with_seed g body none s).1 = (apply_with_seed g body none t).1 :=
  ⟨rfl, rfl⟩

/-- C7.  Whether the body returns normally or raises, the generator state
after `apply_with_seed` equals the state before it (the snapshot is
restored in the `finally` epilogue), so draws made inside the call cannot
affect draws made outside it. -/
theorem apply_with_seed_restores (g : RandGen σ) (body : σ → Except E ρ × σ)
    (seed : Option Bytes) (s : σ) (n : Nat) :
    (apply_with_seed g body seed s).2 = s ∧
    g.randbytes n (apply_with_seed g body seed s).2 = g.randbytes n s :=
  ⟨rfl, rfl⟩

/-- Abstract requirement model consumed by the reconciler: the methods of
the `requirements` object used by `try_reuse_cluster` and
`get_appropriate_cluster`.  `make_met` mutates the cluster in place in
Python; it is modelled as a cluster-to-cluster function. -/
structure Requirements (Req Cl : Type) where
  get_unmet_requirements : Cl → List Req
  is_satisfiable : Cl → Bool × List Req
  make_met : Req → Cl → Cl
  create_cluster : Nat → Cl

/-- Embedding of `testlib.try_reuse_cluster(requirements, cluster)`.
Returns `Except`: the `RuntimeError` raised when requirements remain unmet
after all `make_met` mutations carries the offending unmet list.  The
success value also carries the (possibly mutated) cluster, since the Python
code mutates `cluster` in place. -/
def try_reuse_cluster (R : Requirements Req Cl) (cluster : Cl) :
    Except (List Req) (Bool × List Req × Cl) :=
  if (R.get_unmet_requirements cluster).length = 0 then
    .ok (true, [], cluster)
  else
    let sat := R.is_satisfiable cluster
    if sat.1 then
      let cluster2 := sat.2.foldl (fun c r => R.make_met r c) cluster
      let unmet := R.get_unmet_requirements cluster2
      if unmet.length > 0 then
        .error unmet
      else
        .ok (true, [], cluster2)
    else
      .ok (false, sat.2, cluster)

/-- C3.  If the requirement set is satisfiable from the current cluster
(and reconciliation is actually attempted, i.e. some requirement is unmet),
then each unsatisfied requirement's `make_met` mutation is applied in
sequence (the left fold over the `is_satisfiable` remainder); if afterwards
`get_unmet_requirements` is still non-empty a `RuntimeError` is raised
(an `Except.error`, not a recorded test failure), and if it is empty the
cluster is reported reusable. -/
theorem try_reuse_cluster_satisfiable (R : Requirements Req Cl) (c : Cl)
    (hne : R.get_unmet_requirements c ≠ [])
    (hsat : (R.is_satisfiable c).1 = true) :
    (R.get_unmet_requirements
        ((R.is_satisfiable c).2.foldl (fun cl r => R.make_met r cl) c) ≠ [] →
      try_reuse_cluster R c =
        .error (R.get_unmet_requirements
          ((R.is_satisfiable c).2.foldl (fun cl r => R.make_met r cl) c))) ∧
    (R.get_unmet_requirements
        ((R.is_satisfiable c).2.foldl (fun cl r => R.make_met r cl) c) = [] →
      try_reuse_cluster R c =
        .ok (true, [],
          (R.is_satisfiable c).2.foldl (fun cl r => R.make_met r cl) c)) := by
  constructor
  · intro h
    simp only [try_reuse_cluster, List.length_eq_zero, hne, if_false, hsat,
      if_true]
    have hpos : 0 < (R.get_unmet_requirements
        ((R.is_satisfiable c).2.foldl (fun cl r => R.make_met r cl) c)).length :=
      List.length_pos.mpr h
    simp [hpos]
  · intro h
    simp only [try_reuse_cluster, List.length_eq_zero, hne, if_false, hsat,
      if_true]
    simp [h]

/-- Concrete requirement model for exercising the reconciler: a cluster is
a flag recording whether the single requirement has been made met. -/
def reqWitness : Requirements Unit Bool where
  get_unmet_requirements := fun c => if c then [] else [()]
  is_satisfiable := fun c => (true, if c then [] else [()])
  make_met := fun _ _ => true
  create_cluster := fun _ => true

/-- Witness for C3 at a concrete input: an unmet but satisfiable
requirement whose `make_met` fixes the cluster, so reuse succeeds. -/
theorem try_reuse_cluster_satisfiable_witness :
    try_reuse_cluster reqWitness false = .ok (true, [], true) := by
  have h := try_reuse_cluster_satisfiable reqWitness false (by decide)
    (by decide)
  rw [h.2 (by decide)]
  rfl

/-- Observable outcome of `get_appropriate_cluster`: the cluster finally
returned, whether `cluster.teardown()` was invoked on the old cluster, and
whether `requirements.create_cluster` was invoked. -/
structure GAOutcome (Cl : Type) where
  cluster : Cl
  toreDown : Bool
  created : Bool
deriving DecidableEq

/-- Embedding of `testlib.get_appropriate_cluster`.  The `auth`,
`tmp_cluster_dir` and `kill_nodes` payload is absorbed into
`create_cluster`; `index` reads the `cluster.index` attribute.  An internal
error from `try_reuse_cluster` propagates. -/
def get_appropriate_cluster (R : Requirements Req Cl) (index : Cl → Nat)
    (cluster : Option Cl) (reuse_clusters : Bool) :
    Except (List Req) (GAOutcome Cl) :=
  match cluster with
  | none => .ok ⟨R.create_cluster 0, false, true⟩
  | some c =>
    let rebuild : Except (List Req) (GAOutcome Cl) :=
      .ok ⟨R.create_cluster (index c + 1), true, true⟩
    if reuse_clusters then
      match try_reuse_cluster R c with
      | .error u => .error u
      | .ok (true, _, c2) => .ok ⟨c2, false, false⟩
      | .ok (false, _, _) => rebuild
    else
      rebuild

/-- Requirement model whose requirements are always met, for probing the
reconciler's reuse decision. -/
def reqAlwaysMet : Requirements Unit Nat where
  get_unmet_requirements := fun _ => []
  is_satisfiable := fun _ => (true, [])
  make_met := fun _ c => c
  create_cluster := fun i => 100 + i

/-- C4.  The claim states that an empty unmet-requirement set alone makes
reconciliation return the cluster unchanged.  It is false when cluster
reuse is disallowed: with `reuse_clusters = False` the code tears the old
cluster down and creates a fresh one even though no requirement is unmet.
Concretely, cluster 5 satisfies every requirement, yet reconciliation with
reuse disabled tears it down and returns the newly created cluster 106. -/
theorem C4_counterexample :
    reqAlwaysMet.get_unmet_requirements 5 = [] ∧
    get_appropriate_cluster reqAlwaysMet id (some 5) false =
      .ok ⟨106, true, true⟩ ∧
    (⟨106, true, true⟩ : GAOutcome Nat) ≠ ⟨5, false, false⟩ := by
  refine ⟨rfl, rfl, by decide⟩

/-- C4 (amended).  If an existing cluster is present, cluster reuse is
allowed, and `get_unmet_requirements` is empty, then reconciliation
returns the existing cluster unchanged: no teardown is performed and no new
cluster is created. -/
theorem get_appropriate_cluster_reuse_when_met (R : Requirements Req Cl)
    (index : Cl → Nat) (c : Cl)
    (h : R.get_unmet_requirements c = []) :
    get_appropriate_cluster R index (some c) true = .ok ⟨c, false, false⟩ := by
  simp [get_appropriate_cluster, try_reuse_cluster, h]

/-- Witness for C4's amended theorem at a concrete input. -/
theorem get_appropriate_cluster_reuse_when_met_witness :
    get_appropriate_cluster reqAlwaysMet id (some 7) true =
      .ok ⟨7, false, false⟩ :=
  get_appropriate_cluster_reuse_when_met reqAlwaysMet id 7 rfl

/-- Classification an address string receives from
`ipaddress.ip_address`: an IPv4 literal, an IPv6 literal, or a
`ValueError` (the string is a hostname). -/
inductive AddrClass
  | v4
  | v6
  | invalid
deriving DecidableEq

/-- Embedding of `testlib.maybe_add_brackets(addr)`, parameterised by the
`ip_address` classifier.  `addr[0]` raises `IndexError` on the empty
string; a string already starting with a bracket is returned unchanged; an
IPv6 literal is wrapped in brackets; IPv4 literals and hostnames
(`ValueError` branch) are returned unchanged. -/
def maybe_add_brackets (ip_class : String → AddrClass) (addr : String) :
    Except String String :=
  if addr.data = [] then .error "IndexError: string index out of range"
  else if addr.data.head? = some '[' then .ok addr
  else if ip_class addr = .v6 then .ok ("[" ++ addr ++ "]")
  else .ok addr

/-- Appending strings concatenates their character data. -/
theorem string_data_append (s t : String) : (s ++ t).data = s.data ++ t.data := by
  cases s
  cases t
  rfl

/-- C10.  `maybe_add_brackets` is idempotent on every input on which it
returns: reapplying it to its own output changes nothing.  Moreover the
output equals the input unless the input is an unbracketed IPv6 literal,
which is wrapped in brackets exactly once; a string already starting with
a bracket is never wrapped again. -/
theorem maybe_add_brackets_idempotent (ip_class : String → AddrClass)
    (a b : String) (h : maybe_add_brackets ip_class a = .ok b) :
    maybe_add_brackets ip_class b = .ok b ∧
    (b = a ∨
      (b = "[" ++ a ++ "]" ∧ a.data.head? ≠ some '[' ∧ ip_class a = .v6)) := by
  unfold maybe_add_brackets at h
  by_cases h0 : a.data = []
  · rw [if_pos h0] at h
    exact absurd h (by simp)
  · rw [if_neg h0] at h
    by_cases hc : a.data.head? = some '['
    · rw [if_pos hc] at h
      have hb : b = a := by simpa using h.symm
      subst hb
      constructor
      · unfold maybe_add_brackets
        rw [if_neg h0, if_pos hc]
      · exact Or.inl rfl
    · rw [if_neg hc] at h
      by_cases hcl : ip_class a = .v6
      · rw [if_pos hcl] at h
        have hb : b = "[" ++ a ++ "]" := by simpa using h.symm
        subst hb
        have hdata : ("[" ++ a ++ "]").data = '[' :: (a.data ++ [']']) := by
          rw [string_data_append, string_data_append]
          rfl
        constructor
        · unfold maybe_add_brackets
          rw [hdata]
          simp
        · exact Or.inr ⟨rfl, hc, hcl⟩
      · rw [if_neg hcl] at h
        have hb : b = a := by simpa using h.symm
        subst hb
        refine ⟨?_, Or.inl rfl⟩
        unfold maybe_add_brackets
        rw [if_neg h0, if_neg hc, if_neg hcl]

/-- Concrete address classifier: recognises `::1` as IPv6 and `1.2.3.4` as
IPv4; everything else is a hostname. -/
def ipClassDemo : String → AddrClass := fun s =>
  if s = "::1" then .v6 else if s = "1.2.3.4" then .v4 else .invalid

/-- Witness for C10 at a concrete input: bracketing the IPv6 literal `::1`
is idempotent and wraps exactly once. -/
theorem maybe_add_brackets_idempotent_witness :
    maybe_add_brackets ipClassDemo "[::1]" = .ok "[::1]" ∧
    ("[::1]" = "::1" ∨
      ("[::1]" = "[" ++ "::1" ++ "]" ∧ ("::1").data.head? ≠ some '[' ∧
        ipClassDemo "::1" = .v6)) :=
  maybe_add_brackets_idempotent ipClassDemo "::1" "[::1]" rfl

/-- Call-site tags for the four testset lifecycle phases invoked through
`safe_test_function_call` in `run_testset`. -/
inductive PhaseTag
  | setupPhase
  | testPhase
  | testTeardownPhase
  | teardownPhase
deriving DecidableEq

/-- Record of one method invocation performed through `apply_with_seed` on
the testset instance: the call site, the test name reported on failure
(`{class}.{function}`), and the seed passed to `apply_with_seed`. -/
structure CallRec where
  tag : PhaseTag
  testname : String
  seed : Option Bytes
deriving DecidableEq

/-- Deterministic behaviour of one testset instance: the outcome of
`setup`, of each named test, of the k-th `test_teardown` invocation
(k counts tests executed so far, 1-based), and of `teardown`.  `none`
means the method returns normally, `some e` that it raises `e`. -/
structure TestsetBehavior (E : Type) where
  setupErr : Option E
  testErr : String → Option E
  testTeardownErr : Nat → Option E
  teardownErr : Option E

/-- Result of `safe_test_function_call`: the captured error (if the body
raised), the generator state afterwards, and the method invocations
performed (empty under `dry_run`). -/
structure SafeCallRes (σ E : Type) where
  error : Option (String × E)
  rngState : σ
  calls : List CallRec

/-- Embedding of `testlib.safe_test_function_call`.  The body is invoked
through `apply_with_seed` unless `dry_run` is set; any exception it raises
is caught and returned as a `(testname, exception)` pair, never
propagated.  Printing and output interception are modelled separately
(`no_output`). -/
def safe_test_function_call (g : RandGen σ) (dry_run : Bool) (tag : PhaseTag)
    (testname : String) (outcome : Option E) (seed : Option Bytes) (s : σ) :
    SafeCallRes σ E :=
  if dry_run then
    ⟨none, s, []⟩
  else
    let r := apply_with_seed g (fun st => (outcome, st)) seed s
    ⟨r.1.map (fun e => (testname, e)), r.2, [⟨tag, testname, seed⟩]⟩

/-- Aggregated result of `run_testset`: the `executed` count, the `errors`
list, the `not_ran` list of `(test name, reason)` pairs, the trace of
method invocations, and the generator state afterwards. -/
structure RunRes (σ E : Type) where
  executed : Nat
  errors : List (String × E)
  notRan : List (String × String)
  trace : List CallRec
  rngState : σ
deriving DecidableEq

/-- The components of a run visible to the caller of `run_testset` (the
returned triple plus the method-invocation trace), without the ambient
generator state. -/
def RunRes.obs (r : RunRes σ E) :
    Nat × List (String × E) × List (String × String) × List CallRec :=
  (r.executed, r.errors, r.notRan, r.trace)

/-- Embedding of the `for test in testset['test_name_list']` loop of
`run_testset`: run the test with `test_seed`, then `test_teardown` with
`test_teardown_seed`; on a `test_teardown` failure mark all remaining
tests (`test_name_list[executed:]`) as not ran and break.  `full` is the
complete test list used for the slice; the remaining list and the
`executed` counter are the loop state. -/
def run_loop (g : RandGen σ) (dry_run : Bool) (cls : String)
    (tb : TestsetBehavior E) (full : List String)
    (test_seed test_teardown_seed : Bytes) :
    List String → Nat → σ → RunRes σ E
  | [], executed, s => ⟨executed, [], [], [], s⟩
  | test :: rest, executed, s =>
    let executed1 := executed + 1
    let c1 := safe_test_function_call g dry_run .testPhase
                (cls ++ "." ++ test) (tb.testErr test) (some test_seed) s
    let errs1 := c1.error.toList
    let c2 := safe_test_function_call g dry_run .testTeardownPhase
                (cls ++ ".test_teardown") (tb.testTeardownErr executed1)
                (some test_teardown_seed) c1.rngState
    match c2.error with
    | some err2 =>
        ⟨executed1, errs1 ++ [err2],
         (full.drop executed1).map
           (fun n => (n, "Earlier test_teardown failed")),
         c1.calls ++ c2.calls, c2.rngState⟩
    | none =>
        let res := run_loop g dry_run cls tb full test_seed
                     test_teardown_seed rest executed1 c2.rngState
        ⟨res.executed, errs1 ++ res.errors, res.notRan,
         c1.calls ++ c2.calls ++ res.trace, res.rngState⟩

/-- Embedding of `testlib.run_testset`.  `setup` is invoked with the
run's `seed`; the three chain seeds are then drawn by
`apply_with_seed(random, 'randbytes', [16], prev)`.  If `setup` failed the
function returns `(0, [err], not_ran)` at once — before the `try/finally`
block, so `teardown` is not invoked in that case.  Otherwise the test loop
runs and `teardown` is invoked exactly once in the `finally` clause. -/
def run_testset (g : RandGen σ) (dry_run : Bool) (cls : String)
    (test_name_list : List String) (tb : TestsetBehavior E)
    (seed : Option Bytes) (s : σ) : RunRes σ E :=
  let c0 := safe_test_function_call g dry_run .setupPhase (cls ++ ".setup")
              tb.setupErr seed s
  let d1 := apply_with_seed g (fun st => g.randbytes 16 st) seed c0.rngState
  let test_seed := d1.1
  let d2 := apply_with_seed g (fun st => g.randbytes 16 st) (some test_seed)
              d1.2
  let test_teardown_seed := d2.1
  let d3 := apply_with_seed g (fun st => g.randbytes 16 st)
              (some test_teardown_seed) d2.2
  let teardown_seed := d3.1
  match c0.error with
  | some err =>
      ⟨0, [err],
       test_name_list.map (fun n => (n, "testset setup failed")),
       c0.calls, d3.2⟩
  | none =>
      let L := run_loop g dry_run cls tb test_name_list test_seed
                 test_teardown_seed test_name_list 0 d3.2
      let c3 := safe_test_function_call g dry_run .teardownPhase
                  (cls ++ ".teardown") tb.teardownErr (some teardown_seed)
                  L.rngState
      ⟨L.executed, L.errors ++ c3.error.toList, L.notRan,
       c0.calls ++ L.trace ++ c3.calls, c3.rngState⟩

/-- Whether a recorded invocation is a `teardown`-phase call. -/
def is_teardown_call (r : CallRec) : Bool :=
  match r.tag with
  | .teardownPhase => true
  | _ => false

/-- Number of `teardown`-phase invocations in a trace. -/
def countTeardownCalls (tr : List CallRec) : Nat :=
  (tr.filter is_teardown_call).length

/-- Degenerate generator: a single state, every draw yields zero bytes. -/
def gZero : RandGen Unit where
  seedState := fun _ => ()
  entropyState := ()
  randbytes := fun n _ => (List.replicate n 0, ())

/-- Behaviour whose `setup` raises and whose other phases succeed. -/
def tbSetupFail : TestsetBehavior String where
  setupErr := some "boom"
  testErr := fun _ => none
  testTeardownErr := fun _ => none
  teardownErr := none

/-- C1.  The claim states that when `setup` raises, `teardown` is still
invoked exactly once before `run_testset` returns.  It is false: the
setup-failure path returns before the `try/finally` block that guards the
test loop, so `teardown` is never invoked.  Concretely, with a two-test
testset whose `setup` raises, the run records the setup error, but the
trace contains zero `teardown` invocations, not one. -/
theorem C1_counterexample :
    (run_testset gZero false "TS" ["a", "b"] tbSetupFail none ()).errors =
      [("TS.setup", "boom")] ∧
    (run_testset gZero false "TS" ["a", "b"] tbSetupFail none ()).executed
      = 0 ∧
    countTeardownCalls
      (run_testset gZero false "TS" ["a", "b"] tbSetupFail none ()).trace
      = 0 ∧
    ¬ countTeardownCalls
        (run_testset gZero false "TS" ["a", "b"] tbSetupFail none ()).trace
        = 1 := by
  refine ⟨rfl, rfl, rfl, by decide⟩

/-- C1 (amended).  For every testset whose `setup` raises, `run_testset`
returns executed count 0, the error list containing exactly the setup
error, and all n test names in `notRan` with reason "testset setup
failed"; the only method invoked is `setup` — in particular the `teardown`
phase is not invoked at all (the function returns before the `try/finally`
block). -/
theorem run_testset_setup_failure (g : RandGen σ) (cls : String)
    (names : List String) (tb : TestsetBehavior E) (seed : Option Bytes)
    (s : σ) (e : E) (h : tb.setupErr = some e) :
    run_testset g false cls names tb seed s =
      ⟨0, [(cls ++ ".setup", e)],
       names.map (fun n => (n, "testset setup failed")),
       [⟨.setupPhase, cls ++ ".setup", seed⟩], s⟩ ∧
    countTeardownCalls (run_testset g false cls names tb seed s).trace
      = 0 := by
  constructor
  · simp [run_testset, safe_test_function_call, apply_with_seed, h]
  · simp [run_testset, safe_test_function_call, apply_with_seed, h,
      countTeardownCalls, is_teardown_call]

/-- Witness for C1's amended theorem at a concrete input. -/
theorem run_testset_setup_failure_witness :
    run_testset gZero false "TS" ["x"] tbSetupFail (some [1]) () =
      ⟨0, [("TS.setup", "boom")], [("x", "testset setup failed")],
       [⟨.setupPhase, "TS.setup", some [1]⟩], ()⟩ ∧
    countTeardownCalls
      (run_testset gZero false "TS" ["x"] tbSetupFail (some [1]) ()).trace
      = 0 :=
  run_testset_setup_failure gZero "TS" ["x"] tbSetupFail (some [1]) ()
    "boom" rfl

/-- Counting teardown invocations distributes over trace concatenation. -/
theorem countTeardownCalls_append (xs ys : List CallRec) :
    countTeardownCalls (xs ++ ys) =
      countTeardownCalls xs + countTeardownCalls ys := by
  simp [countTeardownCalls, List.filter_append]

/-- In the test loop, if the `test_teardown` of test `i` (1-based) is the
first one to raise, the loop stops with executed count `i`, marks
`full[i:]` as not ran with reason "Earlier test_teardown failed", and
performs no `teardown`-phase invocation itself.  Generalised over the loop
state: `rest` is the remaining test list and `executed` the count so
far. -/
theorem run_loop_ttd_first_fail (g : RandGen σ) (cls : String)
    (tb : TestsetBehavior E) (full : List String)
    (test_seed test_teardown_seed : Bytes) (i : Nat) (e : E)
    (hi : tb.testTeardownErr i = some e)
    (hfirst : ∀ k, 1 ≤ k → k < i → tb.testTeardownErr k = none) :
    ∀ (rest : List String) (executed : Nat) (s : σ),
      executed < i → i ≤ executed + rest.length →
      (run_loop g false cls tb full test_seed test_teardown_seed rest
          executed s).executed = i ∧
      (run_loop g false cls tb full test_seed test_teardown_seed rest
          executed s).notRan =
        (full.drop i).map (fun n => (n, "Earlier test_teardown failed")) ∧
      countTeardownCalls
        (run_loop g false cls tb full test_seed test_teardown_seed rest
          executed s).trace = 0 := by
  intro rest
  induction rest with
  | nil =>
    intro executed s hlt hle
    simp at hle
    omega
  | cons t rest ih =>
    intro executed s hlt hle
    by_cases heq : executed + 1 = i
    · have herr : tb.testTeardownErr (executed + 1) = some e := by
        rw [heq, hi]
      simp only [run_loop, safe_test_function_call, apply_with_seed,
        Bool.false_eq_true, if_false, Option.map_some, heq, hi]
      constructor
      · rfl
      · constructor
        · rfl
        · rfl
    · have hlt1 : executed + 1 < i := by omega
      have herr : tb.testTeardownErr (executed + 1) = none :=
        hfirst (executed + 1) (by omega) hlt1
      have hIH := ih (executed + 1) s hlt1 (by simp at hle ⊢; omega)
      rcases hterr : tb.testErr t with _ | e1 <;>
      · simp only [run_loop, safe_test_function_call, apply_with_seed,
          Bool.false_eq_true, if_false, herr, hterr, Option.map_none,
          Option.map_none', Option.map_some, Option.map_some',
          Option.toList]
        refine ⟨hIH.1, hIH.2.1, ?_⟩
        rw [countTeardownCalls_append, countTeardownCalls_append, hIH.2.2]
        rfl


/-- First value of the seed chain: `test_seed`, 16 bytes drawn from a
generator seeded with the run's initial seed. -/
def chain1 (g : RandGen σ) (seed : Option Bytes) : Bytes :=
  (g.randbytes 16 (pySeed g seed)).1

/-- Second value of the seed chain: `test_teardown_seed`, 16 bytes drawn
from a generator seeded with `test_seed`. -/
def chain2 (g : RandGen σ) (seed : Option Bytes) : Bytes :=
  (g.randbytes 16 (g.seedState (chain1 g seed))).1

/-- Third value of the seed chain: `teardown_seed`, 16 bytes drawn from a
generator seeded with `test_teardown_seed`. -/
def chain3 (g : RandGen σ) (seed : Option Bytes) : Bytes :=
  (g.randbytes 16 (g.seedState (chain2 g seed))).1

/-- Unfolding of `run_testset` when `setup` succeeds: the loop runs over
the whole test list with `test_seed = chain1` and `test_teardown_seed =
chain2`, and `teardown` is invoked once afterwards with `teardown_seed =
chain3`. -/
theorem run_testset_setup_ok (g : RandGen σ) (cls : String)
    (names : List String) (tb : TestsetBehavior E) (seed : Option Bytes)
    (s : σ) (hsetup : tb.setupErr = none) :
    run_testset g false cls names tb seed s =
      ⟨(run_loop g false cls tb names (chain1 g seed) (chain2 g seed)
          names 0 s).executed,
       (run_loop g false cls tb names (chain1 g seed) (chain2 g seed)
          names 0 s).errors ++
         (tb.teardownErr.map (fun e => (cls ++ ".teardown", e))).toList,
       (run_loop g false cls tb names (chain1 g seed) (chain2 g seed)
          names 0 s).notRan,
       ⟨.setupPhase, cls ++ ".setup", seed⟩ ::
         ((run_loop g false cls tb names (chain1 g seed) (chain2 g seed)
            names 0 s).trace ++
          [⟨.teardownPhase, cls ++ ".teardown", some (chain3 g seed)⟩]),
       (run_loop g false cls tb names (chain1 g seed) (chain2 g seed)
          names 0 s).rngState⟩ := by
  simp only [run_testset, safe_test_function_call, apply_with_seed,
    Bool.false_eq_true, if_false, hsetup, Option.map_none']
  rfl

/-- A `setup`-phase record contributes no teardown invocation. -/
theorem countTeardownCalls_cons_setup (name : String) (sd : Option Bytes)
    (tr : List CallRec) :
    countTeardownCalls (⟨PhaseTag.setupPhase, name, sd⟩ :: tr) =
      countTeardownCalls tr := by
  simp [countTeardownCalls, List.filter_cons, is_teardown_call]

/-- A single `teardown`-phase record is one teardown invocation. -/
theorem countTeardownCalls_teardown_single (name : String)
    (sd : Option Bytes) :
    countTeardownCalls [⟨PhaseTag.teardownPhase, name, sd⟩] = 1 := rfl

/-- C2.  For a testset whose `setup` succeeds and whose `test_teardown`
after test `i` (1-based) is the first to raise, `run_testset` stops
iterating: tests `i+1..n` appear in `notRan` with reason "Earlier
test_teardown failed", the `teardown` phase is invoked exactly once, and
the returned executed count is `i` — tests attempted, including the one
whose `test_teardown` failed and regardless of which test bodies
themselves failed (the behaviour of the test bodies is unconstrained
here). -/
theorem run_testset_ttd_failure (g : RandGen σ) (cls : String)
    (names : List String) (tb : TestsetBehavior E) (seed : Option Bytes)
    (s : σ) (i : Nat) (e : E)
    (hsetup : tb.setupErr = none)
    (h1 : 1 ≤ i) (h2 : i ≤ names.length)
    (hfirst : ∀ k, 1 ≤ k → k < i → tb.testTeardownErr k = none)
    (hi : tb.testTeardownErr i = some e) :
    (run_testset g false cls names tb seed s).executed = i ∧
    (run_testset g false cls names tb seed s).notRan =
      (names.drop i).map (fun n => (n, "Earlier test_teardown failed")) ∧
    countTeardownCalls (run_testset g false cls names tb seed s).trace
      = 1 := by
  have hloop := run_loop_ttd_first_fail g cls tb names (chain1 g seed)
    (chain2 g seed) i e hi hfirst names 0 s (by omega) (by omega)
  simp only [run_testset_setup_ok g cls names tb seed s hsetup]
  refine ⟨hloop.1, hloop.2.1, ?_⟩
  rw [countTeardownCalls_cons_setup, countTeardownCalls_append,
    hloop.2.2, countTeardownCalls_teardown_single]

/-- Behaviour whose first `test_teardown` invocation raises and whose
other phases succeed. -/
def tbTtdFail : TestsetBehavior String where
  setupErr := none
  testErr := fun _ => none
  testTeardownErr := fun k => if k = 1 then some "tdboom" else none
  teardownErr := none

/-- Witness for C2 at a concrete input: three tests, the first
`test_teardown` raises, so tests 2 and 3 are not ran, one teardown runs,
and the executed count is 1. -/
theorem run_testset_ttd_failure_witness :
    (run_testset gZero false "TS" ["t1", "t2", "t3"] tbTtdFail (some [2])
        ()).executed = 1 ∧
    (run_testset gZero false "TS" ["t1", "t2", "t3"] tbTtdFail (some [2])
        ()).notRan =
      [("t2", "Earlier test_teardown failed"),
       ("t3", "Earlier test_teardown failed")] ∧
    countTeardownCalls
      (run_testset gZero false "TS" ["t1", "t2", "t3"] tbTtdFail (some [2])
        ()).trace = 1 :=
  run_testset_ttd_failure gZero "TS" ["t1", "t2", "t3"] tbTtdFail
    (some [2]) () 1 "tdboom" rfl (by omega) (by simp)
    (fun k hk1 hk2 => absurd (Nat.lt_of_le_of_lt hk1 hk2) (by omega)) rfl

/-- Every invocation recorded by the test loop is a test invocation seeded
with `test_seed` or a `test_teardown` invocation seeded with
`test_teardown_seed`. -/
theorem run_loop_trace_seeds (g : RandGen σ) (cls : String)
    (tb : TestsetBehavior E) (full : List String) (ts tts : Bytes) :
    ∀ (rest : List String) (executed : Nat) (s : σ),
      ∀ r ∈ (run_loop g false cls tb full ts tts rest executed s).trace,
        (r.tag = .testPhase ∧ r.seed = some ts) ∨
        (r.tag = .testTeardownPhase ∧ r.seed = some tts) := by
  intro rest
  induction rest with
  | nil =>
    intro executed s r hr
    simp [run_loop] at hr
  | cons u rest ih =>
    intro executed s r hr
    rcases herr : tb.testTeardownErr (executed + 1) with _ | e2
    · simp only [run_loop, safe_test_function_call, apply_with_seed,
        Bool.false_eq_true, if_false, herr, Option.map_none',
        List.cons_append, List.nil_append, List.mem_cons] at hr
      rcases hr with hr | hr | hr
      · subst hr
        exact Or.inl ⟨rfl, rfl⟩
      · subst hr
        exact Or.inr ⟨rfl, rfl⟩
      · exact ih (executed + 1) s r hr
    · simp only [run_loop, safe_test_function_call, apply_with_seed,
        Bool.false_eq_true, if_false, herr, Option.map_some',
        List.cons_append, List.nil_append, List.mem_cons,
        List.not_mem_nil, or_false] at hr
      rcases hr with hr | hr
      · subst hr
        exact Or.inl ⟨rfl, rfl⟩
      · subst hr
        exact Or.inr ⟨rfl, rfl⟩

/-- The caller-visible components of the test loop do not depend on the
ambient generator state: every invocation is made through
`apply_with_seed` with an explicit chain seed, which is restored
afterwards. -/
theorem run_loop_obs_indep (g : RandGen σ) (cls : String)
    (tb : TestsetBehavior E) (full : List String) (ts tts : Bytes) :
    ∀ (rest : List String) (executed : Nat) (s t : σ),
      (run_loop g false cls tb full ts tts rest executed s).obs =
      (run_loop g false cls tb full ts tts rest executed t).obs := by
  intro rest
  induction rest with
  | nil => intro executed s t; rfl
  | cons u rest ih =>
    intro executed s t
    rcases herr : tb.testTeardownErr (executed + 1) with _ | e2
    · simp only [run_loop, safe_test_function_call, apply_with_seed,
        Bool.false_eq_true, if_false, herr, Option.map_none',
        RunRes.obs, Prod.mk.injEq]
      have h := ih (executed + 1) s t
      simp only [RunRes.obs, Prod.mk.injEq] at h
      obtain ⟨he, herrs, hnr, htr⟩ := h
      exact ⟨he, by rw [herrs], by rw [hnr], by rw [htr]⟩
    · simp only [run_loop, safe_test_function_call, apply_with_seed,
        Bool.false_eq_true, if_false, herr, Option.map_some', RunRes.obs]

/-- Behaviour in which every phase succeeds. -/
def tbAllOk : TestsetBehavior String where
  setupErr := none
  testErr := fun _ => none
  testTeardownErr := fun _ => none
  teardownErr := none

/-- C5.  The claim asserts, among other things, that the test,
test_teardown and teardown phases never share a seed.  The chain values
are outputs of the random generator, and nothing in the code prevents
them from colliding: for a generator whose 16-byte draws always yield the
same bytes, the test, test_teardown and teardown invocations all receive
the identical seed. -/
theorem C5_counterexample :
    (run_testset gZero false "TS" ["t"] tbAllOk (some [5]) ()).trace =
      [⟨.setupPhase, "TS.setup", some [5]⟩,
       ⟨.testPhase, "TS.t", some (List.replicate 16 0)⟩,
       ⟨.testTeardownPhase, "TS.test_teardown",
         some (List.replicate 16 0)⟩,
       ⟨.teardownPhase, "TS.teardown", some (List.replicate 16 0)⟩] ∧
    ¬ (∀ r ∈ (run_testset gZero false "TS" ["t"] tbAllOk (some [5])
          ()).trace,
       ∀ r2 ∈ (run_testset gZero false "TS" ["t"] tbAllOk (some [5])
          ()).trace,
         r.tag ≠ r2.tag → r.tag ≠ PhaseTag.setupPhase →
         r2.tag ≠ PhaseTag.setupPhase → r.seed ≠ r2.seed) := by
  constructor
  · rfl
  · decide

/-- C5 (amended).  For every initial seed, the chain is derived as the
claim states: `test_seed`, `test_teardown_seed` and `teardown_seed` are
each 16 bytes drawn from a generator seeded with the previous value
(`chain1`, `chain2`, `chain3`); in the run, `setup` is invoked with the
initial seed and every test, test_teardown and teardown invocation is
seeded with its phase's chain value, so the run's caller-visible outcome,
trace and per-phase draws are independent of the ambient generator state
(bit-for-bit reproducible from the initial seed).  The three phases are
seeded from the three successive chain positions; their seed values are
pairwise distinct whenever the generator's chain values do not collide —
the code itself does not rule such collisions out. -/
theorem run_testset_seed_chain (g : RandGen σ) (cls : String)
    (names : List String) (tb : TestsetBehavior E) (b : Bytes) (s t : σ) :
    (∀ r ∈ (run_testset g false cls names tb (some b) s).trace,
      r.seed = some (match r.tag with
        | .setupPhase => b
        | .testPhase => chain1 g (some b)
        | .testTeardownPhase => chain2 g (some b)
        | .teardownPhase => chain3 g (some b))) ∧
    (run_testset g false cls names tb (some b) s).obs =
      (run_testset g false cls names tb (some b) t).obs ∧
    ((chain1 g (some b) ≠ chain2 g (some b) ∧
      chain2 g (some b) ≠ chain3 g (some b) ∧
      chain1 g (some b) ≠ chain3 g (some b)) →
      ∀ r ∈ (run_testset g false cls names tb (some b) s).trace,
      ∀ r2 ∈ (run_testset g false cls names tb (some b) s).trace,
        r.tag ≠ r2.tag → r.tag ≠ PhaseTag.setupPhase →
        r2.tag ≠ PhaseTag.setupPhase → r.seed ≠ r2.seed) := by
  have htr : ∀ r ∈ (run_testset g false cls names tb (some b) s).trace,
      r.seed = some (match r.tag with
        | .setupPhase => b
        | .testPhase => chain1 g (some b)
        | .testTeardownPhase => chain2 g (some b)
        | .teardownPhase => chain3 g (some b)) := by
    rcases hs : tb.setupErr with _ | e0
    · intro r hr
      rw [run_testset_setup_ok g cls names tb (some b) s hs] at hr
      simp only [List.mem_cons, List.mem_append,
        List.mem_singleton, List.not_mem_nil, or_false] at hr
      rcases hr with hr | hr | hr
      · subst hr
        rfl
      · rcases run_loop_trace_seeds g cls tb names (chain1 g (some b))
          (chain2 g (some b)) names 0 s r hr with ⟨h1, h2⟩ | ⟨h1, h2⟩ <;>
          rw [h2, h1]
      · subst hr
        rfl
    · intro r hr
      simp only [run_testset, safe_test_function_call, apply_with_seed,
        Bool.false_eq_true, if_false, hs, Option.map_some',
        List.mem_singleton] at hr
      subst hr
      rfl
  refine ⟨htr, ?_, ?_⟩
  · rcases hs : tb.setupErr with _ | e0
    · rw [run_testset_setup_ok g cls names tb (some b) s hs,
        run_testset_setup_ok g cls names tb (some b) t hs]
      have h := run_loop_obs_indep g cls tb names (chain1 g (some b))
        (chain2 g (some b)) names 0 s t
      simp only [RunRes.obs, Prod.mk.injEq] at h ⊢
      obtain ⟨he, herrs, hnr, hc⟩ := h
      exact ⟨he, by rw [herrs], by rw [hnr], by rw [hc]⟩
    · simp only [run_testset, safe_test_function_call, apply_with_seed,
        Bool.false_eq_true, if_false, hs, Option.map_some', RunRes.obs]
  · rintro ⟨h12, h23, h13⟩ r hr r2 hr2 hne hns hns2
    have e1 := htr r hr
    have e2 := htr r2 hr2
    rcases r with ⟨tag, n1, sd1⟩
    rcases r2 with ⟨tag2, n2, sd2⟩
    simp only at e1 e2 hne hns hns2 ⊢
    cases tag <;> cases tag2 <;> simp_all <;>
      first
        | exact fun hh => h12 hh.symm
        | exact fun hh => h13 hh.symm
        | exact fun hh => h23 hh.symm

/-- Generator whose chain values are pairwise distinct from seed `[3]`:
drawing n bytes from state s yields n copies of s, and seeding with a byte
string lands in the state given by its sum plus its length. -/
def gChainDistinct : RandGen Nat where
  seedState := fun bs => bs.sum + bs.length
  entropyState := 0
  randbytes := fun n s => (List.replicate n s, s + 1)

/-- Witness for C5's amended theorem at a concrete input: a generator and
initial seed whose chain values are pairwise distinct, for which the run
is ambient-state independent and no two distinct non-setup phases share a
seed. -/
theorem run_testset_seed_chain_witness :
    (run_testset gChainDistinct false "TS" ["u"] tbAllOk (some [3])
        0).obs =
      (run_testset gChainDistinct false "TS" ["u"] tbAllOk (some [3])
        1).obs ∧
    (∀ r ∈ (run_testset gChainDistinct false "TS" ["u"] tbAllOk (some [3])
        0).trace,
     ∀ r2 ∈ (run_testset gChainDistinct false "TS" ["u"] tbAllOk (some [3])
        0).trace,
       r.tag ≠ r2.tag → r.tag ≠ PhaseTag.setupPhase →
       r2.tag ≠ PhaseTag.setupPhase → r.seed ≠ r2.seed) := by
  have h := run_testset_seed_chain gChainDistinct "TS" ["u"] tbAllOk [3] 0 1
  exact ⟨h.2.1, h.2.2 (by decide)⟩

/-- Number of occurrences of character `c` in string `s`. -/
def countChar (c : Char) (s : String) : Nat :=
  s.data.count c

/-- Counting a character distributes over string concatenation. -/
theorem countChar_append (c : Char) (s t : String) :
    countChar c (s ++ t) = countChar c s + countChar c t := by
  simp [countChar, string_data_append, List.count_append]

/-- The failure banner printed by `no_output`: the captured output wrapped
in begin/end lines naming the phase, with a newline appended to the output
when it lacks a trailing one (`extra_cr`), plus the newline `print` itself
appends.  `output[-1]` is modelled as the last character of the (known
non-empty) output. -/
def bannerOf (name output : String) : String :=
  let extra_cr := if output.data.getLast? = some '\n' then "" else "\n"
  "================== " ++ name ++ " output begin =================\n" ++
    output ++ extra_cr ++
    "=================== " ++ name ++ " output end ==================\n" ++
    "\n"

/-- Embedding of `testlib.no_output(name, verbose, ...)` restricted to its
observable output behaviour.  The body is modelled by the text it writes
to stdout (`output`) and its result (`res`); the returned pair is the text
`no_output` lets through to the real stdout and the context result.  With
`verbose = None` the global `config['verbose']` applies; in verbose mode
nothing is redirected; otherwise the captured output is discarded on
success and replayed once inside the banner on failure (only when
non-empty), the original exception being re-raised unchanged. -/
def no_output (config_verbose : Bool) (verbose : Option Bool)
    (name output : String) (res : Except E α) : String × Except E α :=
  let v := verbose.getD config_verbose
  if v then (output, res)
  else
    match res with
    | .ok a => ("", .ok a)
    | .error e =>
      if output.length > 0 then (bannerOf name output, .error e)
      else ("", .error e)

/-- C8.  In non-verbose mode: a body that prints "A" and raises has its
captured output replayed exactly once, wrapped in begin/end banner lines
naming the phase, with the original exception re-raised unchanged; a body
that prints "A" and returns normally produces no output at all; and a
failing body with an empty captured buffer produces no banner.  ("Exactly
once" is counted for a phase name that does not itself contain the
character.) -/
theorem no_output_failure_banner (cfgv : Bool) (vb : Option Bool)
    (name : String) (e : E) (a : A)
    (hv : vb.getD cfgv = false)
    (hname : countChar 'A' name = 0) :
    no_output cfgv vb name "A" (.error e : Except E A) =
      ("================== " ++ name ++ " output begin =================\n"
        ++ "A" ++ "\n" ++
        "=================== " ++ name ++ " output end ==================\n"
        ++ "\n", .error e) ∧
    countChar 'A' (no_output cfgv vb name "A" (.error e : Except E A)).1
      = 1 ∧
    no_output cfgv vb name "A" (.ok a : Except E A) = ("", .ok a) ∧
    no_output cfgv vb name "" (.error e : Except E A) = ("", .error e) := by
  have h1 : no_output cfgv vb name "A" (.error e : Except E A) =
      ("================== " ++ name ++ " output begin =================\n"
        ++ "A" ++ "\n" ++
        "=================== " ++ name ++ " output end ==================\n"
        ++ "\n", .error e) := by
    simp only [no_output, bannerOf, hv, Bool.false_eq_true, if_false]
    rfl
  refine ⟨h1, ?_, ?_, ?_⟩
  · rw [h1]
    simp only [countChar_append, hname]
    decide
  · simp only [no_output, hv, Bool.false_eq_true, if_false]
  · simp only [no_output, hv, Bool.false_eq_true, if_false]
    rfl

/-- Witness for C8 at a concrete input: phase name "phase", a string
exception, non-verbose configuration. -/
theorem no_output_failure_banner_witness :
    no_output false none "phase" "A" (.error "err" : Except String Nat) =
      ("================== " ++ "phase" ++
        " output begin =================\n" ++ "A" ++ "\n" ++
        "=================== " ++ "phase" ++
        " output end ==================\n" ++ "\n", .error "err") ∧
    countChar 'A'
      (no_output false none "phase" "A"
        (.error "err" : Except String Nat)).1 = 1 ∧
    no_output false none "phase" "A" (.ok 0 : Except String Nat) =
      ("", .ok 0) ∧
    no_output false none "phase" "" (.error "err" : Except String Nat) =
      ("", .error "err") :=
  no_output_failure_banner false none "phase" "err" 0 rfl (by decide)

/-- The global `config` dictionary initialised at module import time:
`colors` from `support_colors()` (whether stdout is a tty), `verbose`
false, `screen_width` 80, `dry_run` false. -/
structure Config where
  colors : Bool
  verbose : Bool
  screen_width : Nat
  dry_run : Bool

/-- Embedding of `testlib.support_colors()`: stdout has `isatty` and it
returns true. -/
def support_colors (stdout_isatty : Bool) : Bool := stdout_isatty

/-- The value of the `config` dictionary at module import time. -/
def import_config (stdout_isatty : Bool) : Config where
  colors := support_colors stdout_isatty
  verbose := false
  screen_width := 80
  dry_run := false

/-- Embedding of `testlib.maybe_color(str, code)` reading the current
`config['colors']`. -/
def maybe_color (cfg : Config) (s : String) (code : Nat) : String :=
  if cfg.colors then
    "\x1b[" ++ toString code ++ "m" ++ s ++ "\x1b[0m"
  else s

/-- Embedding of `testlib.green`. -/
def green (cfg : Config) (s : String) : String := maybe_color cfg s 32

/-- Python's format `f'{s: >{w}}'`: left-pad `s` with spaces to total
width `w`; if `s` is already at least `w` characters it is returned
unchanged. -/
def pyFormatRightAligned (s : String) (w : Nat) : String :=
  if s.length < w then
    String.mk (List.replicate (w - s.length) ' ' ++ s.data)
  else s

/-- Embedding of `testlib.right_aligned(s, taken, width)`.  The `width`
default is evaluated once, at function definition time during module
import, from `config['screen_width']` — hence `import_config`, not the
current configuration. -/
def right_aligned (s : String) (taken : Nat := 0)
    (width : Nat := (import_config false).screen_width) : String :=
  let corrected_width := max 0 ((width : Int) - (taken : Int))
  pyFormatRightAligned s corrected_width.toNat

/-- The success status line printed by `call_reported` in verbose mode
with `res_on_same_line = true`: the right-aligned, green-coloured success
string, followed by the elapsed-time suffix (timing is external and passed
in).  `width_taken` is the length of the already-printed
`"  {name}... "` prefix; `right_aligned` is called without a `width`
argument, so its import-time default applies. -/
def call_reported_success_line (cfg : Config)
    (name succ_str time_suffix : String) : String :=
  let str_to_print := "  " ++ name ++ "... "
  let width_taken := str_to_print.length
  green cfg (right_aligned succ_str width_taken) ++ time_suffix

/-- C9.  The default width of `right_aligned` is fixed at module import
time at `config['screen_width'] = 80`: for every string `s` and prefix
length `taken`, `right_aligned s taken` left-pads `s` to
`max 0 (80 - taken)` characters; the import-time screen width is 80
whatever `support_colors` returned; and mutating `config['screen_width']`
afterwards does not change the status line `call_reported` renders. -/
theorem right_aligned_fixed_width (s : String) (taken : Nat) (cfg : Config)
    (n : Nat) (name succ ts : String) :
    (right_aligned s taken).data =
      List.replicate ((max 0 ((80 : Int) - (taken : Int))).toNat - s.length)
        ' ' ++ s.data ∧
    (∀ b, (import_config b).screen_width = 80) ∧
    call_reported_success_line { cfg with screen_width := n } name succ ts =
      call_reported_success_line cfg name succ ts := by
  refine ⟨?_, fun b => rfl, rfl⟩
  show (pyFormatRightAligned s
      (max 0 ((((import_config false).screen_width : Int)) -
        (taken : Int))).toNat).data = _
  have hw : (((import_config false).screen_width : Int)) = (80 : Int) := rfl
  rw [hw]
  unfold pyFormatRightAligned
  by_cases h : s.length < (max 0 ((80 : Int) - (taken : Int))).toNat
  · rw [if_pos h]
  · rw [if_neg h]
    rw [Nat.sub_eq_zero_of_le (Nat.le_of_not_lt h)]
    rfl
